import Mathlib

/-!
Shallow embedding of the elasticsearch-dbapi DB-API layer
(`es/baseapi.py`, `es/elastic/api.py`, `es/opendistro/api.py`).

Python values appearing in result rows are modelled by `Val`; rows
(Python tuples) by `List Val`.  Python exceptions are modelled by the
`PyError` type; a raised exception is an `Except.error` / a `some` in
the second component of a state-returning operation.  Cursor objects
are mutated in place in Python, so operations that can raise after a
mutation return the cursor state together with `Option PyError`
(the state at the moment the exception escapes).
-/

namespace EsDbapi

/-- A scalar value of a result row (Python str / int / bool). -/
inductive Val where
  | vStr (s : String)
  | vInt (i : Int)
  | vBool (b : Bool)
deriving DecidableEq, Repr

/-- A result row: Python tuple of scalars. -/
abbrev Row := List Val

/-- Python exceptions raised by the layer: the DB-API exception classes of
`es/exceptions.py` that the embedded code raises, plus the Python builtins
`KeyError` and `TypeError`.  `err` is the base `exceptions.Error`. -/
inductive PyError where
  | err (msg : String)
  | operationalError (msg : String)
  | programmingError (msg : String)
  | dataError (msg : String)
  | databaseError (msg : String)
  | notSupportedError (msg : String)
  | keyError (key : String)
  | typeError (msg : String)
deriving DecidableEq, Repr

/-- Is the error the Python builtin `KeyError`? -/
def PyError.isKeyError : PyError → Bool
  | .keyError _ => true
  | _ => false

/-- Is the error an `exceptions.DataError`? -/
def PyError.isDataError : PyError → Bool
  | .dataError _ => true
  | _ => false

/-- Is `p` a leading segment of `cs`?  (Helper for the models of the
Python string builtins used by the sources.) -/
def charsStartWith : List Char → List Char → Bool
  | [], _ => true
  | _ :: _, [] => false
  | p :: ps, c :: cs => p == c && charsStartWith ps cs

/-- Left-to-right, non-overlapping replacement of the pattern `p` by `r`,
the semantics of Python `str.replace`.  The fuel (instantiated with the
input length, which every step at least consumes when `p` is non-empty)
only makes the recursion structural. -/
def replaceCharsAux (p r : List Char) : Nat → List Char → List Char
  | 0, cs => cs
  | _ + 1, [] => []
  | fuel + 1, c :: cs =>
    if charsStartWith p (c :: cs) then
      r ++ replaceCharsAux p r fuel ((c :: cs).drop p.length)
    else c :: replaceCharsAux p r fuel cs

/-- Python `s.replace(pattern, repl)` (an empty pattern, which Python
treats specially, does not occur in the sources). -/
def pyReplace (s pattern repl : String) : String :=
  if pattern.data.isEmpty then s
  else String.mk (replaceCharsAux pattern.data repl.data s.data.length s.data)

/-- Python `s.endswith(suffix)`. -/
def pyEndsWith (s suffix : String) : Bool :=
  charsStartWith suffix.data.reverse s.data.reverse

/-- Python `s.lower()` (ASCII case folding, which covers every string the
sources lower-case). -/
def pyLower (s : String) : String :=
  String.mk (s.data.map Char.toLower)

/-- `baseapi.Type`: the four type codes. -/
def TypeSTRING : Nat := 1

/-- `baseapi.Type.NUMBER`. -/
def TypeNUMBER : Nat := 2

/-- `baseapi.Type.BOOLEAN`. -/
def TypeBOOLEAN : Nat := 3

/-- `baseapi.Type.DATETIME`. -/
def TypeDATETIME : Nat := 4

/-- The `type_map` dict of `baseapi.get_type`, as an association list
(keys are distinct, so `List.lookup` coincides with dict lookup). -/
def type_map : List (String × Nat) :=
  [ ("text", TypeSTRING),
    ("keyword", TypeSTRING),
    ("integer", TypeNUMBER),
    ("half_float", TypeNUMBER),
    ("scaled_float", TypeNUMBER),
    ("geo_point", TypeSTRING),
    ("nested", TypeSTRING),
    ("object", TypeSTRING),
    ("date", TypeDATETIME),
    ("datetime", TypeDATETIME),
    ("timestamp", TypeDATETIME),
    ("short", TypeNUMBER),
    ("long", TypeNUMBER),
    ("float", TypeNUMBER),
    ("double", TypeNUMBER),
    ("bytes", TypeNUMBER),
    ("boolean", TypeBOOLEAN),
    ("ip", TypeSTRING),
    ("interval_minute_to_second", TypeSTRING),
    ("interval_hour_to_second", TypeSTRING),
    ("interval_hour_to_minute", TypeSTRING),
    ("interval_day_to_second", TypeSTRING),
    ("interval_day_to_minute", TypeSTRING),
    ("interval_day_to_hour", TypeSTRING),
    ("interval_year_to_month", TypeSTRING),
    ("interval_second", TypeSTRING),
    ("interval_minute", TypeSTRING),
    ("interval_day", TypeSTRING),
    ("interval_month", TypeSTRING),
    ("interval_year", TypeSTRING),
    ("time", TypeSTRING) ]

/-- `baseapi.get_type`: `type_map[data_type.lower()]`.  A key that is not in
the dict raises the Python builtin `KeyError`. -/
def get_type (data_type : String) : Except PyError Nat :=
  match type_map.lookup (pyLower data_type) with
  | some t => .ok t
  | none => .error (.keyError (pyLower data_type))

/-- `baseapi.CursorDescriptionRow`: the 7-field named tuple. -/
structure CursorDescriptionRow where
  name : Option String
  type : Nat
  display_size : Option Nat := none
  internal_size : Option Nat := none
  precision : Option Nat := none
  scale : Option Nat := none
  null_ok : Option Bool := none
deriving DecidableEq, Repr

/-- One element of the `columns` / `schema` array of a SQL response:
a dict with `name`, optional `alias`, and `type` (modelled as present,
as in every response shape the code consumes). -/
structure ResColumn where
  name : Option String := none
  «alias» : Option String := none
  type : String
deriving DecidableEq, Repr

/-- `baseapi.get_description_from_columns`.  The name is
`column.get("name") if not column.get("alias") else column.get("alias")`
(a missing or empty alias is falsy); `get_type` may raise `KeyError`,
which escapes the list comprehension at the first offending column. -/
def get_description_from_columns :
    List ResColumn → Except PyError (List CursorDescriptionRow)
  | [] => .ok []
  | column :: rest => do
    let t ← get_type column.type
    let tail ← get_description_from_columns rest
    pure ({ name := if column.«alias».getD "" = "" then column.name
                    else column.«alias»,
            type := t,
            null_ok := some true } :: tail)

/-- The mutable state of a cursor: `closed`, `arraysize`, `description`,
`_results`, plus the opendistro `v2` flag and the `fetch_size` setting.
`_results` is `Option` because `check_result` tests `self._results is None`.
The `url`, `es` and `sql_path` attributes carry no cursor-lifecycle state
and live in the environment of the operations instead. -/
structure CursorState where
  closed : Bool
  arraysize : Nat
  fetch_size : Option Nat
  v2 : Bool
  description : List CursorDescriptionRow
  results : Option (List Row)
deriving DecidableEq, Repr

/-- `BaseCursor.__init__`: `arraysize = 1`, `closed = False`,
`description = []`, `_results = []` (an empty list, not `None`).
`fetch_size` comes from the connection kwargs with default
`DEFAULT_FETCH_SIZE` (the `es/const.py` module is external to the
embedded sources, so the ambient default is a parameter here); the
base cursor has no `v2` attribute, modelled as `false`. -/
def baseCursorInit (fetch_size : Option Nat) : CursorState :=
  { closed := false,
    arraysize := 1,
    fetch_size := fetch_size,
    v2 := false,
    description := [],
    results := some [] }

/-- `opendistro.api.Cursor.__init__`: base init, then `v2` from kwargs;
when `v2` is set, `fetch_size` is forced to `None`. -/
def odCursorInit (fetch_size : Option Nat) (v2 : Bool) : CursorState :=
  let c := { baseCursorInit fetch_size with v2 := v2 }
  if c.v2 then { c with fetch_size := none } else c

/-- `check_closed` failure message (the class name interpolated is not
load-bearing for any claim; cursor operations use the cursor class). -/
def closedError : PyError := .err "Cursor already closed"

/-- `check_result` failure: `exceptions.Error("Called before execute")`. -/
def beforeExecuteError : PyError := .err "Called before `execute`"

/-- `BaseCursor.fetchone`, decorators `@check_result` then `@check_closed`
(result check runs first).  Pops the first buffered row; an empty buffer
returns `None` (the `IndexError` from `pop(0)` is swallowed). -/
def fetchone (c : CursorState) : Except PyError (CursorState × Option Row) :=
  match c.results with
  | none => .error beforeExecuteError
  | some rs =>
    if c.closed then .error closedError
    else
      match rs with
      | [] => .ok (c, none)
      | r :: rest => .ok ({ c with results := some rest }, some r)

/-- `BaseCursor.fetchmany`: `size = size or self.arraysize` (so Python's
falsy `None` and `0` are both replaced by `arraysize`), then split the
buffer at `size`. -/
def fetchmany (c : CursorState) (size : Option Nat) :
    Except PyError (CursorState × List Row) :=
  match c.results with
  | none => .error beforeExecuteError
  | some rs =>
    if c.closed then .error closedError
    else
      let sz := match size with
        | none => c.arraysize
        | some 0 => c.arraysize
        | some n => n
      .ok ({ c with results := some (rs.drop sz) }, rs.take sz)

/-- `BaseCursor.fetchall`: `list(self)`, i.e. repeated `fetchone` until the
buffer is empty; drains the buffer and returns the drained rows. -/
def fetchall (c : CursorState) : Except PyError (CursorState × List Row) :=
  match c.results with
  | none => .error beforeExecuteError
  | some rs =>
    if c.closed then .error closedError
    else .ok ({ c with results := some [] }, rs)

/-- `BaseCursor.rowcount` (property): `len(self._results)` when the buffer
is non-empty, else `0` — i.e. always the buffer length. -/
def rowcount (c : CursorState) : Except PyError Nat :=
  match c.results with
  | none => .error beforeExecuteError
  | some rs =>
    if c.closed then .error closedError
    else .ok rs.length

/-- `BaseCursor.close`: `@check_closed`, then sets `closed = True`. -/
def closeCursor (c : CursorState) : Except PyError CursorState :=
  if c.closed then .error closedError
  else .ok { c with closed := true }

/-- A parameter value accepted by the binder: Python str, bool, int, or a
list/tuple of such values.  (`escape` also passes floats through like ints
and returns `None` on unsupported types; neither shape occurs in the
claims and both are outside this model.) -/
inductive PyVal where
  | str (s : String)
  | bool (b : Bool)
  | int (i : Int)
  | list (xs : List PyVal)

/-- The value returned by `escape`: either a string or the numeric value
itself (`escape` returns numbers unchanged, not stringified). -/
inductive EscValue where
  | str (s : String)
  | num (i : Int)
deriving DecidableEq, Repr

mutual

/-- `baseapi.escape`.  Checks, in source order: `value == "*"` (only a
string equals `"*"`), strings (single-quoted, inner quotes doubled),
bools (`TRUE`/`FALSE`), numbers (returned as-is), sequences (comma-join
of the recursively escaped elements; the join raises `TypeError` at the
first element whose escaped form is not a string). -/
def escape : PyVal → Except PyError EscValue
  | .str s =>
      if s = "*" then .ok (.str s)
      else .ok (.str ("\x27" ++ pyReplace s "\x27" "\x27\x27" ++ "\x27"))
  | .bool b => .ok (.str (if b then "TRUE" else "FALSE"))
  | .int i => .ok (.num i)
  | .list xs => do
      let parts ← escapeJoinParts xs
      .ok (.str (String.intercalate ", " parts))
termination_by structural v => v

/-- The generator consumed by `", ".join(escape(element) for element in
value)`: elements are escaped one at a time and the join raises
`TypeError` as soon as an item is not a string. -/
def escapeJoinParts : List PyVal → Except PyError (List String)
  | [] => .ok []
  | e :: rest => do
      let v ← escape e
      match v with
      | .str s => do
          let tail ← escapeJoinParts rest
          .ok (s :: tail)
      | .num _ =>
          .error (.typeError "sequence item: expected str instance, int found")
termination_by structural l => l

end

/-- Python `str()` of an escaped value, as used when the formatting
operator interpolates it. -/
def pyStr : EscValue → String
  | .str s => s
  | .num i => toString i

/-- Models the Python percent-formatting operator `operation % mapping`
(a language builtin, not part of the repository) for the forms this layer
uses: `%(key)s` conversions, `%%` escapes, and literal text.  A key absent
from the mapping raises `KeyError`; any other conversion raises
`ValueError` (modelled as the base error). -/
def pyFormatCharsAux (ps : List (String × EscValue)) :
    Nat → List Char → Except PyError (List Char)
  | 0, _ => .ok []
  | _ + 1, [] => .ok []
  | fuel + 1, '%' :: '%' :: rest =>
      (pyFormatCharsAux ps fuel rest).map (fun t => '%' :: t)
  | fuel + 1, '%' :: '(' :: rest =>
    let key := rest.takeWhile (fun ch => ch ≠ ')')
    match rest.dropWhile (fun ch => ch ≠ ')') with
    | ')' :: 's' :: rest2 =>
      match ps.lookup (String.mk key) with
      | some v => (pyFormatCharsAux ps fuel rest2).map (fun t => (pyStr v).data ++ t)
      | none => .error (.keyError (String.mk key))
    | _ => .error (.err "ValueError: unsupported format character")
  | _ + 1, '%' :: _ => .error (.err "ValueError: unsupported format character")
  | fuel + 1, ch :: rest => (pyFormatCharsAux ps fuel rest).map (fun t => ch :: t)

/-- Entry point of the formatting scan.  Every step consumes at least one
input character while spending one unit of fuel, so fuel equal to the
input length makes the zero-fuel branch unreachable; the fuel only makes
the recursion structural. -/
def pyFormatChars (ps : List (String × EscValue)) (cs : List Char) :
    Except PyError (List Char) :=
  pyFormatCharsAux ps cs.length cs

/-- `baseapi.apply_parameters`: `None` parameters return the operation
unchanged; otherwise every value is escaped (building
`escaped_parameters`) and the operation is percent-formatted with the
escaped mapping. -/
def apply_parameters (operation : String)
    (parameters : Option (List (String × PyVal))) : Except PyError String :=
  match parameters with
  | none => .ok operation
  | some ps => do
      let escaped ← ps.mapM (fun kv => do
          let v ← escape kv.2
          pure (kv.1, v))
      let out ← pyFormatChars escaped operation.data
      .ok (String.mk out)

/-- Modelled from the spec: the `es/const.py` module is not among the
embedded sources; it defines the dummy schema name stripped from queries.
The value `"default"` is corroborated inside the sources by the literal
replacement in `basesqlalchemy.py` (`fromclause.replace("default.", "")`). -/
def DEFAULT_SCHEMA : String := "default"

/-- One entry of the `es.cat.indices(format="json")` response, reduced to
the two keys the code reads: `index` and `docs.count` (the latter read
through `int(...)`, modelled as the parsed number). -/
structure CatIndex where
  index : String
  docsCount : Nat
deriving DecidableEq, Repr

/-- The JSON body of a SQL-endpoint response, reduced to the keys the code
reads.  `error` is `(reason, details)`; absent keys are `none`, and the
row arrays default to `[]` exactly as `results.get("rows", [])` /
`results.get("datarows", [])` do. -/
structure EsBody where
  error : Option (String × String) := none
  columns : Option (List ResColumn) := none
  rows : List Row := []
  schema : Option (List ResColumn) := none
  datarows : List Row := []
deriving Repr

/-- Outcome of `es.transport.perform_request("POST", path, body=payload)`:
a raised `elasticsearch.ConnectionError`, a raised `RequestError`
(carrying `ex.error` and the reason string), or a JSON body. -/
inductive ESResponse where
  | connError
  | requestError (error : String) (reason : String)
  | ok (body : EsBody)
deriving Repr

/-- `BaseCursor.sanitize_query`: removes the dummy schema qualifier
`FROM "<DEFAULT_SCHEMA>".` from the query. -/
def sanitize_query (query : String) : String :=
  pyReplace query ("FROM \"" ++ DEFAULT_SCHEMA ++ "\".") "FROM "

/-- `opendistro.api.Cursor.sanitize_query`: strips every double quote,
replaces each (non-overlapping) pair of consecutive spaces by one space,
replaces newlines by spaces, then removes `FROM <DEFAULT_SCHEMA>.`. -/
def od_sanitize_query (query : String) : String :=
  let q := pyReplace query "\"" ""
  let q := pyReplace q "  " " "
  let q := pyReplace q "\n" " "
  pyReplace q ("FROM " ++ DEFAULT_SCHEMA ++ ".") "FROM "

/-- `BaseCursor.elastic_query`.  `sanitize` is the dynamically dispatched
`self.sanitize_query` (overridden by the opendistro cursor); `transport`
models the POST of `{"query": <sanitized text>, "fetch_size"?: n}` to the
SQL path, applied to the query text it is given.  Transport errors map to
`OperationalError` / `ProgrammingError`; a 200 body carrying an `error`
object raises `ProgrammingError`. -/
def elastic_query (sanitize : String → String) (transport : String → ESResponse)
    (query : String) : Except PyError EsBody :=
  let q := sanitize query
  match transport q with
  | .connError => .error (.operationalError "Error connecting to Elasticsearch")
  | .requestError e reason =>
      .error (.programmingError ("Error (" ++ e ++ "): " ++ reason))
  | .ok body =>
    match body.error with
    | some er => .error (.programmingError ("(" ++ er.1 ++ "): " ++ er.2))
    | none => .ok body

/-- `re.match("<prefix>(.*)", operation)`: succeeds iff the operation
starts with the literal prefix; the captured group is the run of
characters up to (excluding) the first newline, `.` not matching `\n`. -/
def reMatchCapture (pre : String) (op : String) : Option String :=
  if charsStartWith pre.data op.data then
    some (String.mk ((op.data.drop pre.data.length).takeWhile (fun ch => ch ≠ '\n')))
  else none

/-- A JSON value inside a sample document (`_source`), as far as
`get_array_type_columns` inspects it: scalars, arrays, objects. -/
inductive Doc where
  | scalar (v : Val)
  | arr (xs : List Doc)
  | dict (kvs : List (String × Doc))

/-- Outcome of `es.search(index=t, size=1)`: a raised `ConnectionError`
(with `e.info`), a raised `NotFoundError` (with `e.error` and reason), or
a response reduced to the two parts the code reads —
`hits.total.value` (`none` models a missing key on that path, which the
code catches as `KeyError` and turns into `DataError`) and
`hits.hits[0]._source`. -/
inductive SearchOutcome where
  | connError (info : String)
  | notFoundError (error : String) (reason : String)
  | ok (totalValue : Option Nat) (firstSource : List (String × Doc))

/-- Environment of the plain-elastic cursor: the SQL transport, the
`cat.indices` listing, the result of the `es.info()` version comparison
`version.parse(number) >= version.parse("7.10.0")`, and `es.search`. -/
structure EsEnv where
  transport : String → ESResponse
  catIndices : List CatIndex
  versionGte710 : Bool
  search : String → SearchOutcome

/-- The inner accumulation of `elastic.api.Cursor.get_array_type_columns`
over `source.items()`: list values contribute `(col,)` and
`(col.keyword,)` (also for empty lists); a list whose first element is a
dict instead contributes `(col.key,)` and `(col.key.keyword,)` per key
of that first element. -/
def arrayColumnsRows (source : List (String × Doc)) : List Row :=
  source.foldl (fun acc kv =>
    match kv.2 with
    | .arr xs =>
      match xs with
      | (Doc.dict kvs) :: _ =>
          acc ++ kvs.foldl (fun acc2 inkv =>
            acc2 ++ [[Val.vStr (kv.1 ++ "." ++ inkv.1)],
                     [Val.vStr (kv.1 ++ "." ++ inkv.1 ++ ".keyword")]]) []
      | _ => acc ++ [[Val.vStr kv.1], [Val.vStr (kv.1 ++ ".keyword")]]
    | _ => acc) []

/-- `elastic.api.Cursor.get_array_type_columns`.  On success sets the
one-column `name` description (its `null_ok` is `None` here, unlike
`get_description_from_columns`) and the array-column rows. -/
def get_array_type_columns (env : EsEnv) (c : CursorState) (table_name : String) :
    CursorState × Option PyError :=
  match env.search table_name with
  | .connError info =>
      (c, some (.operationalError ("Error connecting to url: " ++ info)))
  | .notFoundError e reason =>
      (c, some (.programmingError ("Error (" ++ e ++ "): " ++ reason)))
  | .ok totalValue firstSource =>
    match totalValue with
    | none => (c, some (.dataError "Error inferring array type columns"))
    | some t =>
      let source := if t = 0 then [] else firstSource
      ({ c with
          description := [{ name := some "name", type := TypeSTRING }],
          results := some (arrayColumnsRows source) }, none)

/-- `is_empty` of the `SHOW VALID_TABLES` loops: scanning the
`cat.indices` response, an index entry equal to the row's table name with
`int(docs.count) == 0` marks the table empty (the scan breaks there; a
matching entry with a non-zero count does not break). -/
def isIndexEmpty (response : List CatIndex) (name : Val) : Bool :=
  response.any (fun item => Val.vStr item.index == name && item.docsCount == 0)

/-- The plain-query tail of `elastic.api.Cursor.execute` (parameters
applied, `elastic_query`, rows from `"rows"`, columns from `"columns"`;
a falsy columns field raises `DataError` before any state is touched;
`_results` is assigned before `description`, so an unknown column type
leaves the new rows with the previous description). -/
def elasticExecuteQuery (env : EsEnv) (c : CursorState) (operation : String)
    (parameters : Option (List (String × PyVal))) : CursorState × Option PyError :=
  match apply_parameters operation parameters with
  | .error e => (c, some e)
  | .ok query =>
    match elastic_query sanitize_query env.transport query with
    | .error e => (c, some e)
    | .ok body =>
      let rows := body.rows
      let columns := body.columns.getD []
      if columns.isEmpty then
        (c, some (.dataError "Missing columns field, maybe it\x27s an opendistro sql ep"))
      else
        let c1 := { c with results := some rows }
        match get_description_from_columns columns with
        | .error e => (c1, some e)
        | .ok desc => ({ c1 with description := desc }, none)

/-- `elastic.api.Cursor.get_valid_table_view_names`.  The source calls
`self.execute("SHOW TABLES")`; `"show tables"` is not a custom command
and does not match the ARRAY_COLUMNS pattern, so that call resolves to
the plain-query tail.  Iterating the returned cursor drains its buffer,
after which `_results` is overwritten with the kept rows (the
`description` of the inner `SHOW TABLES` is left in place).  A row is
kept when its index is not empty and its second column equals the type
filter. -/
def get_valid_table_view_names (env : EsEnv) (c : CursorState)
    (type_filter : String) : CursorState × Option PyError :=
  match elasticExecuteQuery env c "SHOW TABLES" none with
  | (c1, some e) => (c1, some e)
  | (c1, none) =>
    let rows := c1.results.getD []
    let kept := rows.filter (fun result =>
      !isIndexEmpty env.catIndices (result.getD 0 (Val.vStr "")) &&
      result.getD 1 (Val.vStr "") == Val.vStr type_filter)
    ({ c1 with results := some kept }, none)

/-- `elastic.api.Cursor.get_valid_table_names`: the type filter depends on
the cluster version (`TABLE` since 7.10.0, else `BASE TABLE`). -/
def elastic_get_valid_table_names (env : EsEnv) (c : CursorState) :
    CursorState × Option PyError :=
  if env.versionGte710 then get_valid_table_view_names env c "TABLE"
  else get_valid_table_view_names env c "BASE TABLE"

/-- `elastic.api.Cursor.get_valid_view_names`. -/
def elastic_get_valid_view_names (env : EsEnv) (c : CursorState) :
    CursorState × Option PyError :=
  get_valid_table_view_names env c "VIEW"

/-- `elastic.api.Cursor.custom_sql_to_method`. -/
def elastic_custom_sql_to_method : List (String × String) :=
  [("show valid_tables", "get_valid_table_names"),
   ("show valid_views", "get_valid_view_names")]

/-- `elastic.api.Cursor.execute`: `@check_closed`, then the custom-command
dispatcher on the lowercased operation, then the
`SHOW ARRAY_COLUMNS FROM (.*)` pattern, else the plain-query tail. -/
def elasticExecute (env : EsEnv) (c : CursorState) (operation : String)
    (parameters : Option (List (String × PyVal))) : CursorState × Option PyError :=
  if c.closed then (c, some closedError)
  else
    match elastic_custom_sql_to_method.lookup (pyLower operation) with
    | some m =>
      if m = "get_valid_table_names" then elastic_get_valid_table_names env c
      else elastic_get_valid_view_names env c
    | none =>
      match reMatchCapture "SHOW ARRAY_COLUMNS FROM " operation with
      | some tbl => get_array_type_columns env c tbl
      | none => elasticExecuteQuery env c operation parameters

/-- One node of an Elasticsearch mapping, as `_traverse_mapping` reads it:
`obj` is a node carrying a `properties` key (its own `type`, if any, is
never read), `leaf` a node without one (`type = none` models a node also
missing the `type` key, where the source raises `KeyError`).  `fields`
is the multi-field dict, each sub-field reduced to its `type` value. -/
inductive MappingVal where
  | obj (properties : List (String × MappingVal)) (fields : List (String × String))
  | leaf (type : Option String) (fields : List (String × String))

/-- The `if "fields" in metadata` loop of `_traverse_mapping`: one
`(field_name.sub, subtype)` entry per sub-field, skipping sub-fields whose
name ends with `keyword` when the `v2` flag is set. -/
def fieldsEntries (v2 : Bool) (field_name : String)
    (flds : List (String × String)) : List (String × String) :=
  (flds.filter (fun sub => !(pyEndsWith sub.1 "keyword" && v2))).map
    (fun sub => (field_name ++ "." ++ sub.1, sub.2))

mutual

/-- The per-field body of `_traverse_mapping`, for a field already joined
into `field_name`: a node with `properties` is recursed into and emits
nothing itself; a node without emits `(field_name, type)` (a missing
`type` key raises `KeyError`); in both cases the node's multi-fields are
then emitted. -/
def traverseNode (v2 : Bool) (field_name : String) :
    MappingVal → Except PyError (List (String × String))
  | .obj props flds => do
      let sub ← traverse_mapping v2 props (some field_name)
      pure (sub ++ fieldsEntries v2 field_name flds)
  | .leaf ty flds =>
      match ty with
      | some t => pure ((field_name, t) :: fieldsEntries v2 field_name flds)
      | none => Except.error (.keyError "type")
termination_by structural m => m

/-- `opendistro.api.Cursor._traverse_mapping`: fields in dict order, each
prefixed by the parent path, accumulated in emission order. -/
def traverse_mapping (v2 : Bool) :
    List (String × MappingVal) → Option String →
    Except PyError (List (String × String))
  | [], _ => .ok []
  | (name, metadata) :: rest, parent_field_name => do
    let field_name := match parent_field_name with
      | some p => p ++ "." ++ name
      | none => name
    let head ← traverseNode v2 field_name metadata
    let tailEntries ← traverse_mapping v2 rest parent_field_name
    pure (head ++ tailEntries)
termination_by structural l => l

end

/-- Environment of the opendistro cursor: SQL transport, `cat.indices`,
`cat.aliases` (each entry reduced to its `alias` and `index` keys),
`es.ping()` (`none` models a raised `ConnectionError`), and
`indices.get_mapping` (the response dict as an ordered list of
`(index name, mappings.properties tree)`; `[]` models an empty response,
where the source raises `DataError`). -/
structure OdEnv where
  transport : String → ESResponse
  catIndices : List CatIndex
  catAliases : List (String × String)
  ping : Option Bool
  getMapping : String → List (String × List (String × MappingVal))

/-- The plain-query tail of `opendistro.api.Cursor.execute` (rows from
`"datarows"`, columns from `"schema"`, the opendistro `sanitize_query`
override dispatched inside `elastic_query`). -/
def odExecuteQuery (env : OdEnv) (c : CursorState) (operation : String)
    (parameters : Option (List (String × PyVal))) : CursorState × Option PyError :=
  match apply_parameters operation parameters with
  | .error e => (c, some e)
  | .ok query =>
    match elastic_query od_sanitize_query env.transport query with
    | .error e => (c, some e)
    | .ok body =>
      let rows := body.datarows
      let columns := body.schema.getD []
      if columns.isEmpty then
        (c, some (.dataError "Missing columns field, maybe it\x27s an elastic sql ep"))
      else
        let c1 := { c with results := some rows }
        match get_description_from_columns columns with
        | .error e => (c1, some e)
        | .ok desc => ({ c1 with description := desc }, none)

/-- `opendistro.api.Cursor.get_valid_table_names`.  The source calls
`self.execute("SHOW TABLES LIKE %")`, which is neither a custom command
nor a `SHOW VALID_COLUMNS FROM` match and so resolves to the plain-query
tail; the kept rows are those whose third column names a non-empty
index. -/
def od_get_valid_table_names (env : OdEnv) (c : CursorState) :
    CursorState × Option PyError :=
  match odExecuteQuery env c "SHOW TABLES LIKE %" none with
  | (c1, some e) => (c1, some e)
  | (c1, none) =>
    let rows := c1.results.getD []
    let kept := rows.filter (fun result =>
      !isIndexEmpty env.catIndices (result.getD 2 (Val.vStr "")))
    ({ c1 with results := some kept }, none)

/-- `opendistro.api.Cursor.get_valid_view_names`: under `v2` it returns
`self` untouched; otherwise it lists `cat.aliases` as
`(alias, index)` rows under a fixed two-column description. -/
def od_get_valid_view_names (env : OdEnv) (c : CursorState) :
    CursorState × Option PyError :=
  if c.v2 then (c, none)
  else
    let results := env.catAliases.map (fun ai => [Val.vStr ai.1, Val.vStr ai.2])
    match get_description_from_columns
        [{ name := some "VIEW_NAME", type := "text" },
         { name := some "TABLE_NAME", type := "text" }] with
    | .error e => (c, some e)
    | .ok desc => ({ c with description := desc, results := some results }, none)

/-- `opendistro.api.Cursor.get_valid_columns`: reads the mapping of the
first index of the `get_mapping` response, flattens it with
`_traverse_mapping`, and sets the fixed two-column description
(`_results` is assigned before `description`). -/
def od_get_valid_columns (env : OdEnv) (c : CursorState) (index_name : String) :
    CursorState × Option PyError :=
  match env.getMapping index_name with
  | [] => (c, some (.dataError "Index mapping returned and unexpected response"))
  | (_, props) :: _ =>
    match traverse_mapping c.v2 props none with
    | .error e => (c, some e)
    | .ok entries =>
      let c1 := { c with
        results := some (entries.map (fun kv => [Val.vStr kv.1, Val.vStr kv.2])) }
      match get_description_from_columns
          [{ name := some "COLUMN_NAME", type := "text" },
           { name := some "TYPE_NAME", type := "text" }] with
      | .error e => (c1, some e)
      | .ok desc => ({ c1 with description := desc }, none)

/-- `opendistro.api.Cursor.get_valid_select_one`: `es.ping()`; a raised
`ConnectionError` or a falsy ping raises `DatabaseError`; otherwise the
single row `(1,)` under the description of column `"1"` of type `long`. -/
def od_get_valid_select_one (env : OdEnv) (c : CursorState) :
    CursorState × Option PyError :=
  match env.ping with
  | none => (c, some (.databaseError "Connection failed"))
  | some false => (c, some (.databaseError "Connection failed"))
  | some true =>
    let c1 := { c with results := some [[Val.vInt 1]] }
    match get_description_from_columns [{ name := some "1", type := "long" }] with
    | .error e => (c1, some e)
    | .ok desc => ({ c1 with description := desc }, none)

/-- `opendistro.api.Cursor.custom_sql_to_method`. -/
def od_custom_sql_to_method : List (String × String) :=
  [("show valid_tables", "get_valid_table_names"),
   ("show valid_views", "get_valid_view_names"),
   ("select 1", "get_valid_select_one")]

/-- `opendistro.api.Cursor.execute`: `@check_closed`, the custom-command
dispatcher on the lowercased operation, the
`SHOW VALID_COLUMNS FROM (.*)` pattern, else the plain-query tail. -/
def odExecute (env : OdEnv) (c : CursorState) (operation : String)
    (parameters : Option (List (String × PyVal))) : CursorState × Option PyError :=
  if c.closed then (c, some closedError)
  else
    match od_custom_sql_to_method.lookup (pyLower operation) with
    | some m =>
      if m = "get_valid_table_names" then od_get_valid_table_names env c
      else if m = "get_valid_view_names" then od_get_valid_view_names env c
      else od_get_valid_select_one env c
    | none =>
      match reMatchCapture "SHOW VALID_COLUMNS FROM " operation with
      | some tbl => od_get_valid_columns env c tbl
      | none => odExecuteQuery env c operation parameters

/-- Does an `escape` result hold a string? -/
def isStrResult : Except PyError EscValue → Bool
  | .ok (.str _) => true
  | _ => false

/-- The string an element escapes to (meaningful when `isStrResult` holds
of its escape). -/
def escStr (e : PyVal) : String :=
  match escape e with
  | .ok (.str s) => s
  | _ => ""

mutual

/-- Specification counterpart of the traversal, written from the claim:
an object node contributes nothing itself beyond its recursively
flattened properties; a leaf contributes exactly one
`(dotted-path, type)` pair; every node additionally contributes one
`(path.subfield, subtype)` pair per declared multi-field. -/
def specNodeColumns (path : String) : MappingVal → List (String × String)
  | .obj props flds =>
      specFlattenColumns props (some path) ++
        flds.map (fun sub => (path ++ "." ++ sub.1, sub.2))
  | .leaf ty flds =>
      (path, ty.getD "") ::
        flds.map (fun sub => (path ++ "." ++ sub.1, sub.2))
termination_by structural m => m

/-- Specification counterpart of the whole-mapping flattening: fields in
order, each under its dotted path. -/
def specFlattenColumns :
    List (String × MappingVal) → Option String → List (String × String)
  | [], _ => []
  | (name, md) :: rest, parent =>
    let path := match parent with
      | some p => p ++ "." ++ name
      | none => name
    specNodeColumns path md ++ specFlattenColumns rest parent
termination_by structural l => l

end

mutual

/-- Well-formedness of a mapping node: every node without `properties`
carries a `type` (as every real Elasticsearch mapping does). -/
def wfNode : MappingVal → Bool
  | .obj props _ => wfMapping props
  | .leaf ty _ => ty.isSome
termination_by structural m => m

/-- Well-formedness of a mapping tree (see `wfNode`). -/
def wfMapping : List (String × MappingVal) → Bool
  | [] => true
  | (_, md) :: rest => wfNode md && wfMapping rest
termination_by structural l => l

end

/-- A transport that answers every query with a single row echoing the
query text it received, under a fixed one-column description; it carries
both dialects' response shapes, so the result row of a successful
`execute` observes exactly the text sent to the SQL endpoint. -/
def echoTransport : String → ESResponse := fun q =>
  ESResponse.ok
    { columns := some [{ name := some "q", type := "text" }],
      rows := [[Val.vStr q]],
      schema := some [{ name := some "q", type := "text" }],
      datarows := [[Val.vStr q]] }

/-- An elastic environment built on the echo transport. -/
def echoEsEnv : EsEnv :=
  { transport := echoTransport, catIndices := [], versionGte710 := true,
    search := fun _ => SearchOutcome.ok (some 0) [] }

/-- An opendistro environment built on the echo transport. -/
def echoOdEnv : OdEnv :=
  { transport := echoTransport, catIndices := [], catAliases := [],
    ping := some true, getMapping := fun _ => [] }

/-- An elastic environment whose SQL endpoint answers 200 with a body
missing the `columns` field (the opendistro response shape, which the
elastic cursor rejects with `DataError`). -/
def noColumnsEsEnv : EsEnv :=
  { transport := fun _ => ESResponse.ok {}, catIndices := [],
    versionGte710 := true, search := fun _ => SearchOutcome.ok (some 0) [] }

/-- A cursor still holding a previous query's description and row
buffer. -/
def staleCursor : CursorState :=
  { closed := false, arraysize := 1, fetch_size := none, v2 := false,
    description := [{ name := some "Carrier", type := TypeSTRING,
                      null_ok := some true }],
    results := some [[Val.vStr "stale"]] }

/-- C2: on a freshly constructed cursor, on which `execute` was never
called, `fetchone` returns `None`, `fetchmany` and `fetchall` return
`[]`, and `rowcount` returns `0` — none of them raises, because
`__init__` sets `_results = []` rather than `None`, so the
`check_result` guard (which only fires on `None`) never triggers; this
contradicts the documented behaviour that fetch methods before any
`execute` raise an Interface-level error. -/
theorem c2_fetch_before_execute_returns (fs : Option Nat) :
    fetchone (baseCursorInit fs) = .ok (baseCursorInit fs, none) ∧
    fetchmany (baseCursorInit fs) none = .ok (baseCursorInit fs, []) ∧
    fetchall (baseCursorInit fs) = .ok (baseCursorInit fs, []) ∧
    rowcount (baseCursorInit fs) = .ok 0 :=
  ⟨rfl, rfl, rfl, rfl⟩

/-- C10: `fetchmany` with requested size `0` behaves exactly like
`fetchmany` with no size: Python's `size = size or self.arraysize`
replaces the falsy `0` by `arraysize`, so up to `arraysize` rows are
removed from the front of the buffer and returned — in particular the
result is not the empty list whenever the buffer is non-empty and
`arraysize` is non-zero. -/
theorem c10_fetchmany_zero_uses_arraysize (c : CursorState) (rs : List Row)
    (hres : c.results = some rs) (hcl : c.closed = false) :
    fetchmany c (some 0) = fetchmany c none ∧
    fetchmany c (some 0) =
      .ok ({ c with results := some (rs.drop c.arraysize) },
           rs.take c.arraysize) ∧
    (c.arraysize ≠ 0 → rs ≠ [] → rs.take c.arraysize ≠ []) := by
  unfold fetchmany
  rw [hres]
  refine ⟨by simp [hcl], by simp [hcl], ?_⟩
  intro ha hrs
  match rs, hrs with
  | r :: rest, _ =>
    match c.arraysize, ha with
    | n + 1, _ => simp

/-- C10 witness: a cursor buffering two rows with `arraysize = 1`;
`fetchmany(0)` returns the first row, not zero rows. -/
theorem c10_fetchmany_zero_uses_arraysize_witness :
    fetchmany
      { closed := false, arraysize := 1, fetch_size := none, v2 := false,
        description := [], results := some [[Val.vInt 7], [Val.vInt 8]] }
      (some 0) =
    .ok ({ closed := false, arraysize := 1, fetch_size := none, v2 := false,
           description := [], results := some [[Val.vInt 8]] },
         [[Val.vInt 7]]) :=
  ((c10_fetchmany_zero_uses_arraysize
      { closed := false, arraysize := 1, fetch_size := none, v2 := false,
        description := [], results := some [[Val.vInt 7], [Val.vInt 8]] }
      [[Val.vInt 7], [Val.vInt 8]] rfl rfl).2.1).trans rfl

/-- C5: a boolean parameter escapes to bare `TRUE`/`FALSE`, never to a
numeric escape result; binding `{flag: True}` into `"x = %(flag)s"`
produces `"x = TRUE"`. -/
theorem c5_bool_renders_true_false :
    (∀ b : Bool, escape (PyVal.bool b) =
      .ok (.str (if b then "TRUE" else "FALSE"))) ∧
    (∀ b : Bool, ∀ i : Int, escape (PyVal.bool b) ≠ .ok (.num i)) ∧
    apply_parameters "x = %(flag)s" (some [("flag", PyVal.bool true)]) =
      .ok "x = TRUE" := by
  refine ⟨fun b => by cases b <;> rfl, fun b i => ?_, rfl⟩
  cases b <;> simp [escape]

/-- C6 counterexample: an unknown native type string raises the Python
builtin `KeyError` of the dict lookup, which is not an
`exceptions.DataError`. -/
theorem c6_counterexample :
    get_type "varchar" = .error (.keyError "varchar") ∧
    PyError.isDataError (.keyError "varchar") = false :=
  ⟨rfl, rfl⟩

/-- C6 (amended): a native type string outside the lookup table (after
case-folding) makes `get_type`, and with it the column-description
builder, raise a hard error — but it is the builtin `KeyError` of
`type_map[...]`, not a `DataError`. -/
theorem c6_unknown_type_raises_keyerror (ty : String)
    (h : type_map.lookup (pyLower ty) = none) (nm al : Option String) :
    get_type ty = .error (.keyError (pyLower ty)) ∧
    get_description_from_columns [{ name := nm, «alias» := al, type := ty }] =
      .error (.keyError (pyLower ty)) := by
  have hg : get_type ty = .error (.keyError (pyLower ty)) := by
    unfold get_type; rw [h]
  refine ⟨hg, ?_⟩
  simp only [get_description_from_columns, hg]
  rfl

/-- C6 witness: the type string `varchar` is outside the table and makes
the description builder raise `KeyError`. -/
theorem c6_unknown_type_raises_keyerror_witness :
    type_map.lookup (pyLower "varchar") = none ∧
    get_description_from_columns [{ name := some "c", type := "varchar" }] =
      .error (.keyError "varchar") :=
  ⟨rfl, (c6_unknown_type_raises_keyerror "varchar" rfl (some "c") none).2⟩

/-- C8 counterexample: a list of supported numeric scalars does not
escape to a comma-joined string — the join raises `TypeError`, because
numeric elements escape to numbers rather than strings. -/
theorem c8_counterexample :
    escape (PyVal.list [PyVal.int 1, PyVal.int 2]) =
      .error (.typeError "sequence item: expected str instance, int found") :=
  rfl

/-- Elements whose escapes are strings join into the mapped list. -/
theorem escapeJoinParts_eq_map (xs : List PyVal)
    (h : ∀ e ∈ xs, isStrResult (escape e) = true) :
    escapeJoinParts xs = .ok (xs.map escStr) := by
  induction xs with
  | nil => rfl
  | cons e rest ih =>
    have he := h e (by simp)
    have hrest : ∀ x ∈ rest, isStrResult (escape x) = true :=
      fun x hx => h x (by simp [hx])
    unfold escapeJoinParts
    cases hesc : escape e with
    | error err => rw [hesc] at he; simp [isStrResult] at he
    | ok v =>
      cases v with
      | num i => rw [hesc] at he; simp [isStrResult] at he
      | str s =>
        have hs : escStr e = s := by simp [escStr, hesc]
        simp only [hesc, ih hrest, List.map_cons, hs]
        rfl

/-- C8 (amended): for a list or tuple all of whose elements escape to
strings (strings, booleans, the wildcard, nested such sequences),
`escape` returns the comma-joined string of the recursively escaped
elements; a numeric element instead makes the join raise `TypeError`
(see the counterexample). -/
theorem c8_escape_list_joins (xs : List PyVal)
    (h : ∀ e ∈ xs, isStrResult (escape e) = true) :
    escape (PyVal.list xs) =
      .ok (.str (String.intercalate ", " (xs.map escStr))) := by
  unfold escape
  rw [escapeJoinParts_eq_map xs h]
  rfl

/-- C8 witness: the list `["a", True]` joins into `'a', TRUE`. -/
theorem c8_escape_list_joins_witness :
    (∀ e ∈ [PyVal.str "a", PyVal.bool true], isStrResult (escape e) = true) ∧
    escape (PyVal.list [PyVal.str "a", PyVal.bool true]) =
      .ok (.str "\x27a\x27, TRUE") :=
  ⟨by decide, (c8_escape_list_joins _ (by decide)).trans rfl⟩

/-- An erroring `get_type` always raises the `KeyError` of the lookup. -/
theorem get_type_error_eq (ty : String) (e : PyError)
    (h : get_type ty = .error e) : e = .keyError (pyLower ty) := by
  unfold get_type at h
  cases hl : type_map.lookup (pyLower ty) with
  | some t => rw [hl] at h; simp at h
  | none => rw [hl] at h; simp at h; exact h.symm

/-- Every error of the description builder is a `KeyError` (the only
failure inside it is the `get_type` dict lookup). -/
theorem get_description_error_isKeyError (cols : List ResColumn) (e : PyError)
    (h : get_description_from_columns cols = .error e) :
    e.isKeyError = true := by
  induction cols with
  | nil => simp [get_description_from_columns] at h
  | cons col rest ih =>
    unfold get_description_from_columns at h
    cases hg : get_type col.type with
    | error e2 =>
      rw [hg] at h
      have he2 : e2 = e := by
        have : (Except.error e2 : Except PyError (List CursorDescriptionRow)) =
            .error e := h
        simpa using this
      rw [← he2, get_type_error_eq col.type e2 hg]
      rfl
    | ok t =>
      rw [hg] at h
      cases hr : get_description_from_columns rest with
      | error e2 =>
        rw [hr] at h
        have he2 : e2 = e := by
          have hx : (Except.error e2 : Except PyError (List CursorDescriptionRow)) =
              .error e := h
          simpa using hx
        rw [he2] at hr
        exact ih hr
      | ok tail =>
        rw [hr] at h
        exact Except.noConfusion (h : Except.ok _ = Except.error e)

/-- C1 counterexample: an `execute` that raises (here: the response body
lacks the `columns` field, raising `DataError`) leaves the cursor state
exactly as it was — the previous description is still set and the
previous rows are still buffered, contradicting the claim that
`description`/rows are cleared before the attempt. -/
theorem c1_counterexample :
    elasticExecute noColumnsEsEnv staleCursor "SELECT Carrier FROM flights"
        none =
      (staleCursor,
       some (.dataError
         "Missing columns field, maybe it\x27s an opendistro sql ep")) ∧
    staleCursor.results = some [[Val.vStr "stale"]] ∧
    staleCursor.description ≠ [] :=
  ⟨rfl, rfl, by decide⟩

/-- C1 (amended): `Cursor.execute` never clears the previous result state
before the attempt.  Whenever it raises (with no parameters bound): the
cursor keeps its previous `description`; and unless the failure is the
`KeyError` of an unknown column type (which happens after the new rows
were already assigned), the whole state — previous rows included — is
exactly unchanged, so stale results from the previous query remain
fetchable after a raised error. -/
theorem c1_execute_failure_keeps_state (env : EsEnv) (c : CursorState)
    (op : String) (hcl : c.closed = false)
    (hcmd : elastic_custom_sql_to_method.lookup (pyLower op) = none)
    (hre : reMatchCapture "SHOW ARRAY_COLUMNS FROM " op = none)
    (e : PyError) (he : (elasticExecute env c op none).2 = some e) :
    (elasticExecute env c op none).1.description = c.description ∧
    (e.isKeyError = false → (elasticExecute env c op none).1 = c) := by
  have hexec : elasticExecute env c op none = elasticExecuteQuery env c op none := by
    unfold elasticExecute
    rw [hcl, hcmd, hre]
    rfl
  rw [hexec] at he ⊢
  unfold elasticExecuteQuery at he ⊢
  simp only [apply_parameters] at he ⊢
  cases hq : elastic_query sanitize_query env.transport op with
  | error e2 =>
    exact ⟨rfl, fun _ => rfl⟩
  | ok body =>
    rw [hq] at he
    cases hcols : (body.columns.getD []).isEmpty with
    | true =>
      simp only [hcols]
      exact ⟨rfl, fun _ => rfl⟩
    | false =>
      simp only [hcols] at he
      simp only [hcols]
      cases hd : get_description_from_columns (body.columns.getD []) with
      | error e2 =>
        simp only [hd] at he
        simp only [hd]
        have he2 : e2 = e := by simpa using he
        refine ⟨rfl, fun hk => ?_⟩
        have hkey := get_description_error_isKeyError _ e2 hd
        rw [he2] at hkey
        rw [hkey] at hk
        cases hk
      | ok desc =>
        simp only [hd] at he
        simp at he

/-- C1 witness: a concrete failing execute (missing `columns` field) on a
cursor holding stale rows leaves the state unchanged. -/
theorem c1_execute_failure_keeps_state_witness :
    (elasticExecute noColumnsEsEnv staleCursor "SELECT Carrier FROM flights"
        none).1 = staleCursor :=
  (c1_execute_failure_keeps_state noColumnsEsEnv staleCursor
    "SELECT Carrier FROM flights" rfl rfl rfl
    (.dataError "Missing columns field, maybe it\x27s an opendistro sql ep")
    rfl).2 rfl

/-- C7 counterexample: the query text delivered to the SQL endpoint (here
echoed back as the result row) is not the operation verbatim — the
opendistro sanitizer strips double quotes, and the base sanitizer strips
the dummy-schema qualifier. -/
theorem c7_counterexample :
    (odExecute echoOdEnv (baseCursorInit none) "SELECT \"a\" FROM t"
        none).1.results = some [[Val.vStr "SELECT a FROM t"]] ∧
    "SELECT a FROM t" ≠ "SELECT \"a\" FROM t" ∧
    (elasticExecute echoEsEnv (baseCursorInit none)
        "SELECT x FROM \"default\".tbl" none).1.results =
      some [[Val.vStr "SELECT x FROM tbl"]] ∧
    "SELECT x FROM tbl" ≠ "SELECT x FROM \"default\".tbl" :=
  ⟨rfl, by decide, rfl, by decide⟩

/-- C7 (amended): for an operation that is no catalog pseudo-command (no
exact custom-command match, no regex match) and has no parameters bound,
`execute` sends `sanitize_query(operation)` as the query body — the text
is unchanged except for the sanitizer rewrites (base: the dummy-schema
qualifier is removed; opendistro: double quotes stripped, space pairs
collapsed, newlines blanked, dummy schema removed).  Stated with the
echo transport, whose result row is exactly the text received by the
endpoint. -/
theorem c7_execute_sends_sanitized (op : String) (c : CursorState)
    (hcl : c.closed = false)
    (hodCmd : od_custom_sql_to_method.lookup (pyLower op) = none)
    (hodRe : reMatchCapture "SHOW VALID_COLUMNS FROM " op = none)
    (hesCmd : elastic_custom_sql_to_method.lookup (pyLower op) = none)
    (hesRe : reMatchCapture "SHOW ARRAY_COLUMNS FROM " op = none) :
    (odExecute echoOdEnv c op none).1.results =
      some [[Val.vStr (od_sanitize_query op)]] ∧
    (elasticExecute echoEsEnv c op none).1.results =
      some [[Val.vStr (sanitize_query op)]] := by
  have h1 : odExecute echoOdEnv c op none = odExecuteQuery echoOdEnv c op none := by
    unfold odExecute
    rw [hcl, hodCmd, hodRe]
    rfl
  have h2 : elasticExecute echoEsEnv c op none =
      elasticExecuteQuery echoEsEnv c op none := by
    unfold elasticExecute
    rw [hcl, hesCmd, hesRe]
    rfl
  rw [h1, h2]
  exact ⟨rfl, rfl⟩

/-- C7 witness: a plain query on the echo transport comes back as its
sanitized (here: unchanged) text. -/
theorem c7_execute_sends_sanitized_witness :
    (odExecute echoOdEnv (baseCursorInit none) "SELECT 2 FROM x"
        none).1.results =
      some [[Val.vStr (od_sanitize_query "SELECT 2 FROM x")]] :=
  (c7_execute_sends_sanitized "SELECT 2 FROM x" (baseCursorInit none)
    rfl rfl rfl rfl rfl).1

/-- C9: on a `v2` opendistro cursor, executing `SHOW VALID_VIEWS` (which
the dispatcher lowercases to the `show valid_views` custom command)
returns the very same cursor state, row buffer and description exactly
unchanged, and raises nothing. -/
theorem c9_show_valid_views_v2_identity (env : OdEnv) (c : CursorState)
    (hcl : c.closed = false) (hv2 : c.v2 = true) :
    odExecute env c "SHOW VALID_VIEWS" none = (c, none) := by
  have hlook : od_custom_sql_to_method.lookup (pyLower "SHOW VALID_VIEWS") =
      some "get_valid_view_names" := rfl
  unfold odExecute
  rw [hcl, hlook]
  simp only [reduceIte, String.reduceEq]
  unfold od_get_valid_view_names
  rw [hv2]
  rfl

/-- C9 witness: a freshly constructed `v2` cursor is returned unchanged
by `SHOW VALID_VIEWS`. -/
theorem c9_show_valid_views_v2_identity_witness :
    odExecute echoOdEnv (odCursorInit none true) "SHOW VALID_VIEWS" none =
      (odCursorInit none true, none) :=
  c9_show_valid_views_v2_identity echoOdEnv (odCursorInit none true) rfl rfl

/-- A non-empty verdict of the `cat.indices` scan: no entry for this
table name carries a zero document count. -/
theorem isIndexEmpty_false_no_zero (resp : List CatIndex) (name : Val)
    (h : isIndexEmpty resp name = false) :
    ∀ item ∈ resp, Val.vStr item.index = name → item.docsCount ≠ 0 := by
  intro item hmem heq hzero
  rw [isIndexEmpty, List.any_eq_false] at h
  exact h item hmem (by simp [heq, hzero])

/-- Rows kept by the elastic `SHOW VALID_TABLES` filter name non-empty
indices. -/
theorem elastic_valid_tables_kept_not_empty (env : EsEnv) (c : CursorState)
    (tf : String) (r : Row)
    (hok : (get_valid_table_view_names env c tf).2 = none)
    (hr : r ∈ (get_valid_table_view_names env c tf).1.results.getD []) :
    isIndexEmpty env.catIndices (r.getD 0 (Val.vStr "")) = false := by
  unfold get_valid_table_view_names at hok hr
  cases hq : elasticExecuteQuery env c "SHOW TABLES" none with
  | mk c1 o =>
    rw [hq] at hok hr
    cases o with
    | some e => simp at hok
    | none =>
      have hr2 : r ∈ (c1.results.getD []).filter (fun result =>
          !isIndexEmpty env.catIndices (result.getD 0 (Val.vStr "")) &&
          result.getD 1 (Val.vStr "") == Val.vStr tf) := hr
      have hpred := (List.mem_filter.mp hr2).2
      simp only [Bool.and_eq_true, Bool.not_eq_true'] at hpred
      exact hpred.1

/-- Rows kept by the opendistro `SHOW VALID_TABLES` filter name non-empty
indices. -/
theorem od_valid_tables_kept_not_empty (env : OdEnv) (c : CursorState)
    (r : Row)
    (hok : (od_get_valid_table_names env c).2 = none)
    (hr : r ∈ (od_get_valid_table_names env c).1.results.getD []) :
    isIndexEmpty env.catIndices (r.getD 2 (Val.vStr "")) = false := by
  unfold od_get_valid_table_names at hok hr
  cases hq : odExecuteQuery env c "SHOW TABLES LIKE %" none with
  | mk c1 o =>
    rw [hq] at hok hr
    cases o with
    | some e => simp at hok
    | none =>
      have hr2 : r ∈ (c1.results.getD []).filter (fun result =>
          !isIndexEmpty env.catIndices (result.getD 2 (Val.vStr ""))) := hr
      have hpred := (List.mem_filter.mp hr2).2
      simp only [Bool.not_eq_true'] at hpred
      exact hpred

/-- C3: in both dialects, assuming every table listed by the inner
`SHOW TABLES` appears in the `cat.indices` statistics, a successful
`SHOW VALID_TABLES` never returns a row naming a table whose document
count in those statistics is `0` (elastic reads the table name from the
first row column, opendistro from the third). -/
theorem c3_valid_tables_exclude_empty (envE : EsEnv) (envO : OdEnv)
    (cE cO : CursorState) (tf : String)
    (hE : (get_valid_table_view_names envE cE tf).2 = none)
    (hO : (od_get_valid_table_names envO cO).2 = none)
    (hAppearE : ∀ r ∈ (elasticExecuteQuery envE cE "SHOW TABLES"
        none).1.results.getD [],
      ∃ item ∈ envE.catIndices, Val.vStr item.index = r.getD 0 (Val.vStr ""))
    (hAppearO : ∀ r ∈ (odExecuteQuery envO cO "SHOW TABLES LIKE %"
        none).1.results.getD [],
      ∃ item ∈ envO.catIndices, Val.vStr item.index = r.getD 2 (Val.vStr "")) :
    (∀ r ∈ (get_valid_table_view_names envE cE tf).1.results.getD [],
      ∀ item ∈ envE.catIndices,
        Val.vStr item.index = r.getD 0 (Val.vStr "") → item.docsCount ≠ 0) ∧
    (∀ r ∈ (od_get_valid_table_names envO cO).1.results.getD [],
      ∀ item ∈ envO.catIndices,
        Val.vStr item.index = r.getD 2 (Val.vStr "") → item.docsCount ≠ 0) := by
  constructor
  · intro r hr
    exact isIndexEmpty_false_no_zero _ _
      (elastic_valid_tables_kept_not_empty envE cE tf r hE hr)
  · intro r hr
    exact isIndexEmpty_false_no_zero _ _
      (od_valid_tables_kept_not_empty envO cO r hO hr)

/-- An elastic environment whose `SHOW TABLES` lists `a` and `b`, with
`b` empty in the index statistics. -/
def c3EsEnv : EsEnv :=
  { transport := fun _ => ESResponse.ok
      { columns := some [{ name := some "name", type := "text" },
                         { name := some "type", type := "text" }],
        rows := [[Val.vStr "a", Val.vStr "TABLE"],
                 [Val.vStr "b", Val.vStr "TABLE"]] },
    catIndices := [⟨"a", 5⟩, ⟨"b", 0⟩],
    versionGte710 := true,
    search := fun _ => SearchOutcome.ok (some 0) [] }

/-- An opendistro environment whose `SHOW TABLES LIKE %` lists `t1` and
`t2` in the third column, with `t2` empty in the index statistics. -/
def c3OdEnv : OdEnv :=
  { transport := fun _ => ESResponse.ok
      { schema := some [{ name := some "c", type := "text" }],
        datarows := [[Val.vStr "x", Val.vStr "y", Val.vStr "t1"],
                     [Val.vStr "x", Val.vStr "y", Val.vStr "t2"]] },
    catIndices := [⟨"t1", 3⟩, ⟨"t2", 0⟩],
    catAliases := [], ping := some true, getMapping := fun _ => [] }

/-- C3 witness: the concrete listings above — the zero-count tables are
excluded from the returned rows. -/
theorem c3_valid_tables_exclude_empty_witness :
    (∀ r ∈ (get_valid_table_view_names c3EsEnv (baseCursorInit none)
        "TABLE").1.results.getD [],
      ∀ item ∈ c3EsEnv.catIndices,
        Val.vStr item.index = r.getD 0 (Val.vStr "") → item.docsCount ≠ 0) ∧
    (∀ r ∈ (od_get_valid_table_names c3OdEnv
        (baseCursorInit none)).1.results.getD [],
      ∀ item ∈ c3OdEnv.catIndices,
        Val.vStr item.index = r.getD 2 (Val.vStr "") → item.docsCount ≠ 0) :=
  c3_valid_tables_exclude_empty c3EsEnv c3OdEnv (baseCursorInit none)
    (baseCursorInit none) "TABLE" rfl rfl (by decide) (by decide)

mutual

/-- The per-node traversal agrees with the claim's specification on
well-formed nodes (the `v2` flag unset). -/
theorem traverseNode_eq_spec (fn : String) (m : MappingVal)
    (h : wfNode m = true) :
    traverseNode false fn m = .ok (specNodeColumns fn m) := by
  cases m with
  | obj props flds =>
    have hp : wfMapping props = true := by simpa [wfNode] using h
    unfold traverseNode specNodeColumns
    rw [traverse_mapping_eq_spec props (some fn) hp]
    simp [fieldsEntries]
  | leaf ty flds =>
    cases ty with
    | some t =>
      unfold traverseNode specNodeColumns
      simp only [fieldsEntries, Bool.and_false, Bool.not_false, List.filter_true]
      rfl
    | none => simp [wfNode] at h

/-- The whole-mapping traversal agrees with the claim's specification on
well-formed trees (the `v2` flag unset). -/
theorem traverse_mapping_eq_spec (l : List (String × MappingVal))
    (p : Option String) (h : wfMapping l = true) :
    traverse_mapping false l p = .ok (specFlattenColumns l p) := by
  cases l with
  | nil => rfl
  | cons kv rest =>
    obtain ⟨name, md⟩ := kv
    have h1 : wfNode md = true := by
      simp [wfMapping, Bool.and_eq_true] at h
      exact h.1
    have h2 : wfMapping rest = true := by
      simp [wfMapping, Bool.and_eq_true] at h
      exact h.2
    unfold traverse_mapping specFlattenColumns
    dsimp only
    rw [traverseNode_eq_spec _ md h1, traverse_mapping_eq_spec rest p h2]
    rfl

end

/-- C4: with the `v2` flag unset, on every well-formed finite mapping
tree the traversal emits exactly the claim's flattening — one
`(dotted-path, type)` pair per leaf (recursing through `properties`
nodes, which emit nothing themselves) plus one `(path.sub, subtype)`
pair per declared multi-field; in particular the nested-object and
text-plus-keyword examples flatten as stated. -/
theorem c4_traverse_mapping_flattens (mapping : List (String × MappingVal))
    (parent : Option String) (h : wfMapping mapping = true) :
    traverse_mapping false mapping parent =
      .ok (specFlattenColumns mapping parent) ∧
    traverse_mapping false
        [("a", MappingVal.obj [("b", MappingVal.leaf (some "keyword") [])] [])]
        none =
      .ok [("a.b", "keyword")] ∧
    traverse_mapping false
        [("f", MappingVal.leaf (some "text") [("keyword", "keyword")])] none =
      .ok [("f", "text"), ("f.keyword", "keyword")] :=
  ⟨traverse_mapping_eq_spec mapping parent h, rfl, rfl⟩

/-- C4 witness: a concrete well-formed tree (an object with a leaf child
carrying a multi-field) flattens to its specification columns. -/
theorem c4_traverse_mapping_flattens_witness :
    wfMapping [("a", MappingVal.obj
        [("b", MappingVal.leaf (some "text") [("keyword", "keyword")])] [])] =
      true ∧
    traverse_mapping false
        [("a", MappingVal.obj
          [("b", MappingVal.leaf (some "text") [("keyword", "keyword")])] [])]
        none =
      .ok [("a.b", "text"), ("a.b.keyword", "keyword")] :=
  ⟨rfl,
   ((c4_traverse_mapping_flattens
      [("a", MappingVal.obj
        [("b", MappingVal.leaf (some "text") [("keyword", "keyword")])] [])]
      none rfl).1).trans rfl⟩

end EsDbapi
